import Mathlib

/-!
# The `greet` library of cxx_template_project

Shallow embedding of `src/lib/greet/include/greet/greet.h` and
`src/lib/greet/src/greet.c`, followed by the properties of `greet`.

Modelling conventions:

* a C `char` is a `Char`, a NUL-terminated C string is the `String` of the
  characters before the terminator;
* a `Person const*` is an address (`Nat`), `NULL` being address `0`; the
  `Person` records of the caller live in `State.heap`;
* the standard output stream is the text written to it so far
  (`State.stdout`); a write appends and always succeeds (the source ignores
  the value `printf` returns);
* a run that leaves defined C behaviour (dereferencing a non-null address
  that holds no `Person`, a conversion the embedding of `printf` does not
  know) has result `none`.
-/

namespace Greet

/-! ## Data model (`greet.h`) -/

/-- The C type `enum Greeting`: an integer type, so a value of it is modelled
by the integer it holds. -/
abbrev Greeting := Int

/-- First enumerator of `enum Greeting`; C numbers enumerators from zero. -/
def HELLO : Greeting := 0

/-- Second enumerator of `enum Greeting`. -/
def GOODBYE : Greeting := 1

/-- The values `enum Greeting` declares: `HELLO` and `GOODBYE`. -/
def IsVariant (g : Greeting) : Prop := g = HELLO ∨ g = GOODBYE

instance (g : Greeting) : Decidable (IsVariant g) := by
  unfold IsVariant; exact inferInstance

/-- The C type `struct Person`, with the string its `name` member points to. -/
structure Person where
  name : String
  deriving DecidableEq, Repr

/-- The null pointer. -/
def NULL : Nat := 0

/-- What `greet` can observe or change: the `Person` record stored at each
address (none where there is no live record) and the text written to the
standard output stream so far. -/
structure State where
  heap : Nat → Option Person
  stdout : String

/-! ## Operations (`greet.c`) -/

/-- Text that a `printf` format produces from its string arguments. Ordinary
characters are copied; `%s` is replaced by the next argument; `%%` gives a
percent sign. Every other use of `%`, and a `%s` with no argument left, is
outside the embedding (`none`). -/
def vformat : List Char → List String → Option (List Char)
  | [], _ => some []
  | [c], _ => if c = '%' then none else some [c]
  | c :: d :: fmt, args =>
    if c = '%' then
      if d = 's' then
        match args with
        | [] => none
        | a :: rest => (vformat fmt rest).map fun out => a.toList ++ out
      else if d = '%' then
        (vformat fmt args).map fun out => '%' :: out
      else none
    else
      (vformat (d :: fmt) args).map fun out => c :: out

/-- The call `printf(format, args...)` with string arguments: the formatted
text is appended to the standard output stream. -/
def printf (format : String) (args : List String) (s : State) : Option State :=
  (vformat format.toList args).map fun out =>
    { s with stdout := s.stdout ++ String.mk out }

/-- The function `greet` of `greet.c`:
```c
void greet(Greeting greeting, Person const* person) {
    if (!person) {
        return;
    }
    switch (greeting) {
        case HELLO:   printf("Hello, %s!\n", person->name); break;
        case GOODBYE: printf("Goodbye, %s!\n", person->name); break;
    }
}
```
The result is the state in which the call returns. The record is read
(`person->name`) only inside the two cases, as in the source. -/
def greet (greeting : Greeting) (person : Nat) (s : State) : Option State :=
  if person = NULL then
    some s
  else if greeting = HELLO then
    (s.heap person).bind fun p => printf "Hello, %s!\n" [p.name] s
  else if greeting = GOODBYE then
    (s.heap person).bind fun p => printf "Goodbye, %s!\n" [p.name] s
  else
    some s

/-- The state `s` after `out` has been written to standard output and nothing
else has changed. -/
def State.write (s : State) (out : String) : State :=
  { s with stdout := s.stdout ++ out }

/-- The pointer `person` refers, in state `s`, to a live record equal to `p`
(a present Person). -/
def PointsTo (s : State) (person : Nat) (p : Person) : Prop :=
  person ≠ NULL ∧ s.heap person = some p

/-- The optional Person a call receives: `none` is the null pointer, `some p`
a pointer to a live record equal to `p`. -/
def Refers (s : State) (person : Nat) : Option Person → Prop
  | none => person = NULL
  | some p => PointsTo s person p

/-- A text that is one line: it ends with a newline character and holds no
other newline character. -/
def SingleLine (out : String) : Prop :=
  out.toList.getLast? = some '\n' ∧ out.toList.count '\n' = 1

instance (out : String) : Decidable (SingleLine out) := by
  unfold SingleLine; exact inferInstance

/-- A caller that owns one `Person` named `n`, stored at address `1`, and has
written `sofar` to standard output. -/
def caller (n : String) (sofar : String) : State :=
  { heap := fun a => if a = 1 then some ⟨n⟩ else none, stdout := sofar }

/-! ## Basic facts -/

theorem vformat_hello (n : String) :
    vformat "Hello, %s!\n".toList [n] = some ("Hello, ".toList ++ n.toList ++ "!\n".toList) := by
  rfl

theorem vformat_goodbye (n : String) :
    vformat "Goodbye, %s!\n".toList [n]
      = some ("Goodbye, ".toList ++ n.toList ++ "!\n".toList) := by
  rfl

/-- Writing `a` and then `b` is writing `a ++ b`. -/
theorem State.write_write (s : State) (a b : String) :
    (s.write a).write b = s.write (a ++ b) := by
  simp [State.write, String.append_assoc]

/-- Writing the empty text changes nothing. -/
theorem State.write_empty (s : State) : s.write "" = s := by
  simp [State.write]

theorem State.write_heap (s : State) (a : String) : (s.write a).heap = s.heap := rfl

theorem State.write_stdout (s : State) (a : String) :
    (s.write a).stdout = s.stdout ++ a := rfl

/-- The written text is determined by the states before and after. -/
theorem State.write_inj (s : State) (a b : String) (h : s.write a = s.write b) : a = b := by
  have h1 : (s.write a).stdout = (s.write b).stdout := by rw [h]
  simp only [State.write_stdout] at h1
  have h2 := congrArg String.data h1
  simp only [String.data_append] at h2
  exact String.ext (List.append_cancel_left h2)

theorem printf_hello (n : String) (s : State) :
    printf "Hello, %s!\n" [n] s = some (s.write ("Hello, " ++ n ++ "!\n")) := by
  simp only [printf, vformat_hello, Option.map_some', State.write]
  congr 2

theorem printf_goodbye (n : String) (s : State) :
    printf "Goodbye, %s!\n" [n] s = some (s.write ("Goodbye, " ++ n ++ "!\n")) := by
  simp only [printf, vformat_goodbye, Option.map_some', State.write]
  congr 2

/-- The call with a null pointer returns at once. -/
theorem greet_null (g : Greeting) (s : State) : greet g NULL s = some s := by
  simp [greet]

/-- The `HELLO` case with a present Person. -/
theorem greet_hello (person : Nat) (p : Person) (s : State) (h : PointsTo s person p) :
    greet HELLO person s = some (s.write ("Hello, " ++ p.name ++ "!\n")) := by
  obtain ⟨hne, hp⟩ := h
  simp [greet, hne, hp, printf_hello]

/-- The `GOODBYE` case with a present Person. -/
theorem greet_goodbye (person : Nat) (p : Person) (s : State) (h : PointsTo s person p) :
    greet GOODBYE person s = some (s.write ("Goodbye, " ++ p.name ++ "!\n")) := by
  obtain ⟨hne, hp⟩ := h
  simp [greet, hne, hp, printf_goodbye, HELLO, GOODBYE]

/-- A greeting value that is neither enumerator falls through the `switch`. -/
theorem greet_other (g : Greeting) (person : Nat) (s : State)
    (h0 : g ≠ HELLO) (h1 : g ≠ GOODBYE) : greet g person s = some s := by
  simp [greet, h0, h1]

theorem caller_pointsTo (n sofar : String) : PointsTo (caller n sofar) 1 ⟨n⟩ :=
  ⟨by decide, rfl⟩

/-- Every call with a greeting variant and a present Person writes
`salutation ++ name ++ "!\n"`, the salutation being `"Hello, "` or
`"Goodbye, "`. -/
theorem greet_present (g : Greeting) (person : Nat) (p : Person) (s : State)
    (hg : IsVariant g) (h : PointsTo s person p) :
    ∃ sal : String, (sal = "Hello, " ∨ sal = "Goodbye, ") ∧
      greet g person s = some (s.write (sal ++ p.name ++ "!\n")) := by
  rcases hg with rfl | rfl
  · exact ⟨"Hello, ", Or.inl rfl, greet_hello person p s h⟩
  · exact ⟨"Goodbye, ", Or.inr rfl, greet_goodbye person p s h⟩

/-- A call on an optional Person, whatever the greeting value, returns after
writing some text and changing nothing else. -/
theorem greet_writes (g : Greeting) (person : Nat) (op : Option Person) (s : State)
    (h : Refers s person op) : ∃ out, greet g person s = some (s.write out) := by
  cases op with
  | none =>
    have h0 : person = NULL := h
    subst h0
    exact ⟨"", by rw [State.write_empty]; exact greet_null g s⟩
  | some p =>
    have hp : PointsTo s person p := h
    by_cases h0 : g = HELLO
    · subst h0; exact ⟨_, greet_hello person p s hp⟩
    · by_cases h1 : g = GOODBYE
      · subst h1; exact ⟨_, greet_goodbye person p s hp⟩
      · exact ⟨"", by rw [State.write_empty]; exact greet_other g person s h0 h1⟩

theorem line_toList (sal n : String) :
    (sal ++ n ++ "!\n").toList = sal.toList ++ n.toList ++ ['!', '\n'] := by
  simp [String.toList, String.data_append]

theorem line_singleLine (sal n : String) (hs : '\n' ∉ sal.toList) (hn : '\n' ∉ n.toList) :
    SingleLine (sal ++ n ++ "!\n") := by
  unfold SingleLine
  rw [line_toList]
  refine ⟨by simp, ?_⟩
  rw [List.count_append, List.count_append, List.count_eq_zero.mpr hs,
    List.count_eq_zero.mpr hn]
  decide

theorem line_length (sal n : String) :
    (sal ++ n ++ "!\n").length = n.length + (sal.length + 2) := by
  simp only [String.length_append]
  have : "!\n".length = 2 := by decide
  omega

theorem line_ne_empty (sal n : String) : sal ++ n ++ "!\n" ≠ "" := by
  intro h
  have := congrArg String.length h
  rw [line_length] at this
  simp at this

/-- The lines of the two templates never coincide, and within one template
the name can be read back from the line. -/
theorem line_inj (sal₁ sal₂ n₁ n₂ : String)
    (h₁ : sal₁ = "Hello, " ∨ sal₁ = "Goodbye, ") (h₂ : sal₂ = "Hello, " ∨ sal₂ = "Goodbye, ")
    (h : sal₁ ++ n₁ ++ "!\n" = sal₂ ++ n₂ ++ "!\n") : sal₁ = sal₂ ∧ n₁ = n₂ := by
  have hl := congrArg String.toList h
  rw [line_toList, line_toList] at hl
  rcases h₁ with rfl | rfl <;> rcases h₂ with rfl | rfl
  · refine ⟨rfl, String.ext ?_⟩
    have := List.append_cancel_right hl
    exact List.append_cancel_left this
  · exfalso
    simp [String.toList] at hl
  · exfalso
    simp [String.toList] at hl
  · refine ⟨rfl, String.ext ?_⟩
    have := List.append_cancel_right hl
    exact List.append_cancel_left this

/-- The text a call writes is a function of the greeting value and the
optional Person alone. -/
theorem greet_line (g : Greeting) (op : Option Person) :
    ∃ out, ∀ (person : Nat) (s : State), Refers s person op →
      greet g person s = some (s.write out) := by
  cases op with
  | none =>
    refine ⟨"", fun person s h => ?_⟩
    have h0 : person = NULL := h
    subst h0
    rw [State.write_empty]
    exact greet_null g s
  | some p =>
    by_cases h0 : g = HELLO
    · subst h0
      exact ⟨_, fun person s h => greet_hello person p s h⟩
    · by_cases h1 : g = GOODBYE
      · subst h1
        exact ⟨_, fun person s h => greet_goodbye person p s h⟩
      · refine ⟨"", fun person s _ => ?_⟩
        rw [State.write_empty]
        exact greet_other g person s h0 h1

/-- A write leaves every pointer referring to what it referred to. -/
theorem Refers.write (s : State) (person : Nat) (op : Option Person) (out : String)
    (h : Refers s person op) : Refers (s.write out) person op := by
  cases op with
  | none => exact h
  | some p => exact h

/-! ## Exact output -/

/-- C1: for every name `n`, `greet` called with `HELLO` and a present Person
whose name is `n` returns in the state where exactly `"Hello, " ++ n ++ "!\n"`
has been appended to standard output and nothing else has changed. -/
theorem greet_hello_output (n : String) (person : Nat) (s : State)
    (h : PointsTo s person ⟨n⟩) :
    greet HELLO person s = some (s.write ("Hello, " ++ n ++ "!\n")) :=
  greet_hello person ⟨n⟩ s h

theorem greet_hello_output_witness :
    PointsTo (caller "Ada" "") 1 ⟨"Ada"⟩ ∧
      greet HELLO 1 (caller "Ada" "")
        = some ((caller "Ada" "").write ("Hello, " ++ "Ada" ++ "!\n")) :=
  ⟨caller_pointsTo "Ada" "", greet_hello_output "Ada" 1 (caller "Ada" "") (caller_pointsTo "Ada" "")⟩

/-- Scenario 1 of the specification: `(HELLO, Person{name: "Ada"})` on an empty
stream leaves `"Hello, Ada!\n"` on it. -/
theorem greet_hello_ada :
    (greet HELLO 1 (caller "Ada" "")).map State.stdout = some "Hello, Ada!\n" := by
  rw [greet_hello 1 ⟨"Ada"⟩ _ (caller_pointsTo "Ada" "")]
  decide

/-- C2: for every name `n`, the empty name included, `greet` called with
`GOODBYE` and a present Person whose name is `n` returns in the state where
exactly `"Goodbye, " ++ n ++ "!\n"` has been appended to standard output and
nothing else has changed. -/
theorem greet_goodbye_output (n : String) (person : Nat) (s : State)
    (h : PointsTo s person ⟨n⟩) :
    greet GOODBYE person s = some (s.write ("Goodbye, " ++ n ++ "!\n")) :=
  greet_goodbye person ⟨n⟩ s h

theorem greet_goodbye_output_witness :
    PointsTo (caller "" "") 1 ⟨""⟩ ∧
      greet GOODBYE 1 (caller "" "") = some ((caller "" "").write ("Goodbye, " ++ "" ++ "!\n")) :=
  ⟨caller_pointsTo "" "", greet_goodbye_output "" 1 (caller "" "") (caller_pointsTo "" "")⟩

/-- Scenarios 2 and 4 of the specification: `(GOODBYE, Person{name: "Grace"})`
gives `"Goodbye, Grace!\n"` and the empty name gives `"Goodbye, !\n"`. -/
theorem greet_goodbye_scenarios :
    (greet GOODBYE 1 (caller "Grace" "")).map State.stdout = some "Goodbye, Grace!\n" ∧
      (greet GOODBYE 1 (caller "" "")).map State.stdout = some "Goodbye, !\n" := by
  rw [greet_goodbye 1 ⟨"Grace"⟩ _ (caller_pointsTo "Grace" ""),
    greet_goodbye 1 ⟨""⟩ _ (caller_pointsTo "" "")]
  decide

/-- C3: for every greeting value, `greet` called with the null pointer returns
normally in the state it was called in: the text written is empty. -/
theorem greet_absent (g : Greeting) (s : State) :
    greet g NULL s = some (s.write "") ∧ s.write "" = s := by
  rw [State.write_empty]
  exact ⟨greet_null g s, rfl⟩

/-! ## Shape of the output -/

/-- C4, as the claim states it, fails: a name may hold a newline character,
and `greet` copies it. With the name `"a\nb"` the call writes
`"Hello, a\nb!\n"`, which is not a single line. -/
theorem greet_newline_in_name :
    IsVariant HELLO ∧ PointsTo (caller "a\nb" "") 1 ⟨"a\nb"⟩ ∧
      ¬ ∃ out, greet HELLO 1 (caller "a\nb" "") = some ((caller "a\nb" "").write out) ∧
          SingleLine out := by
  refine ⟨Or.inl rfl, caller_pointsTo _ _, ?_⟩
  rintro ⟨out, hout, hline⟩
  rw [greet_hello 1 ⟨"a\nb"⟩ _ (caller_pointsTo _ _)] at hout
  have := State.write_inj _ _ _ (Option.some.inj hout)
  subst this
  revert hline
  decide

/-- C4 (amended): for every greeting variant and every present Person whose
name holds no newline character, the text one `greet` call writes is a single
line: it ends with a newline character and holds no other one. -/
theorem greet_single_line (g : Greeting) (person : Nat) (p : Person) (s : State)
    (hg : IsVariant g) (h : PointsTo s person p) (hn : '\n' ∉ p.name.toList) :
    ∃ out, greet g person s = some (s.write out) ∧ SingleLine out := by
  obtain ⟨sal, hsal, hcall⟩ := greet_present g person p s hg h
  refine ⟨_, hcall, line_singleLine sal p.name ?_ hn⟩
  rcases hsal with rfl | rfl <;> decide

theorem greet_single_line_witness :
    IsVariant GOODBYE ∧ PointsTo (caller "Grace" "") 1 ⟨"Grace"⟩ ∧
      '\n' ∉ "Grace".toList ∧
      ∃ out, greet GOODBYE 1 (caller "Grace" "") = some ((caller "Grace" "").write out) ∧
        SingleLine out :=
  ⟨Or.inr rfl, caller_pointsTo _ _, by decide,
    greet_single_line GOODBYE 1 ⟨"Grace"⟩ (caller "Grace" "") (Or.inr rfl)
      (caller_pointsTo _ _) (by decide)⟩

/-- C10, as the claim states it, fails on the lengths: the line for `"Ada"`
has `3 + 9` characters with `HELLO` and `3 + 11` with `GOODBYE`, the final
newline included, not `3 + 8` and `3 + 10`. -/
theorem greet_length_off_by_one :
    PointsTo (caller "Ada" "") 1 ⟨"Ada"⟩ ∧
      (¬ ∃ out, greet HELLO 1 (caller "Ada" "") = some ((caller "Ada" "").write out) ∧
          out.length = "Ada".length + 8) ∧
      (¬ ∃ out, greet GOODBYE 1 (caller "Ada" "") = some ((caller "Ada" "").write out) ∧
          out.length = "Ada".length + 10) := by
  refine ⟨caller_pointsTo _ _, ?_, ?_⟩
  · rintro ⟨out, hout, hlen⟩
    rw [greet_hello 1 ⟨"Ada"⟩ _ (caller_pointsTo _ _)] at hout
    have := State.write_inj _ _ _ (Option.some.inj hout)
    subst this
    revert hlen
    decide
  · rintro ⟨out, hout, hlen⟩
    rw [greet_goodbye 1 ⟨"Ada"⟩ _ (caller_pointsTo _ _)] at hout
    have := State.write_inj _ _ _ (Option.some.inj hout)
    subst this
    revert hlen
    decide

/-- C10 (amended): for every greeting variant and every optional Person, the
text `greet` writes is non-empty exactly when the Person is present; for a
present Person named `n` it has `length n + 9` characters with `HELLO` and
`length n + 11` characters with `GOODBYE`. -/
theorem greet_output_length (g : Greeting) (person : Nat) (op : Option Person) (s : State)
    (hg : IsVariant g) (h : Refers s person op) :
    ∃ out, greet g person s = some (s.write out) ∧
      (out ≠ "" ↔ op.isSome = true) ∧
      ∀ p, op = some p →
        (g = HELLO → out.length = p.name.length + 9) ∧
        (g = GOODBYE → out.length = p.name.length + 11) := by
  cases op with
  | none =>
    have h0 : person = NULL := h
    subst h0
    refine ⟨"", ?_, by simp, by simp⟩
    rw [State.write_empty]
    exact greet_null g s
  | some p =>
    have hp : PointsTo s person p := h
    rcases hg with rfl | rfl
    · refine ⟨_, greet_hello person p s hp, ?_, ?_⟩
      · simpa using line_ne_empty "Hello, " p.name
      · intro q hq
        cases hq
        refine ⟨fun _ => ?_, fun hc => ?_⟩
        · rw [line_length]
          have : "Hello, ".length = 7 := by decide
          omega
        · exact absurd hc (by decide)
    · refine ⟨_, greet_goodbye person p s hp, ?_, ?_⟩
      · simpa using line_ne_empty "Goodbye, " p.name
      · intro q hq
        cases hq
        refine ⟨fun hc => ?_, fun _ => ?_⟩
        · exact absurd hc (by decide)
        · rw [line_length]
          have : "Goodbye, ".length = 9 := by decide
          omega

theorem greet_output_length_witness :
    IsVariant HELLO ∧ Refers (caller "Ada" "") 1 (some ⟨"Ada"⟩) ∧
      ∃ out, greet HELLO 1 (caller "Ada" "") = some ((caller "Ada" "").write out) ∧
        (out ≠ "" ↔ (some (Person.mk "Ada")).isSome = true) ∧
        ∀ p, some (Person.mk "Ada") = some p →
          (HELLO = HELLO → out.length = p.name.length + 9) ∧
          (HELLO = GOODBYE → out.length = p.name.length + 11) :=
  ⟨Or.inl rfl, caller_pointsTo _ _,
    greet_output_length HELLO 1 (some ⟨"Ada"⟩) (caller "Ada" "") (Or.inl rfl)
      (caller_pointsTo _ _)⟩

/-- C9: the text written determines the input for present Persons. If a call
with variant `g₁` on a Person named `n₁` and a call with variant `g₂` on a
Person named `n₂` write the same text, then `g₁ = g₂` and `n₁ = n₂`. -/
theorem greet_injective (g₁ g₂ : Greeting) (n₁ n₂ : String) (person₁ person₂ : Nat)
    (s₁ s₂ : State) (out : String) (hg₁ : IsVariant g₁) (hg₂ : IsVariant g₂)
    (h₁ : PointsTo s₁ person₁ ⟨n₁⟩) (h₂ : PointsTo s₂ person₂ ⟨n₂⟩)
    (w₁ : greet g₁ person₁ s₁ = some (s₁.write out))
    (w₂ : greet g₂ person₂ s₂ = some (s₂.write out)) : g₁ = g₂ ∧ n₁ = n₂ := by
  have key : ∀ (g : Greeting) (n : String) (person : Nat) (s : State), IsVariant g →
      PointsTo s person ⟨n⟩ → greet g person s = some (s.write out) →
      ∃ sal : String, (sal = "Hello, " ∨ sal = "Goodbye, ") ∧ (sal = "Hello, " ↔ g = HELLO) ∧
        out = sal ++ n ++ "!\n" := by
    intro g n person s hg h w
    rcases hg with rfl | rfl
    · rw [greet_hello person ⟨n⟩ s h] at w
      exact ⟨"Hello, ", Or.inl rfl, by simp, (State.write_inj _ _ _ (Option.some.inj w)).symm⟩
    · rw [greet_goodbye person ⟨n⟩ s h] at w
      refine ⟨"Goodbye, ", Or.inr rfl, ?_, (State.write_inj _ _ _ (Option.some.inj w)).symm⟩
      constructor
      · intro hc; exact absurd hc (by decide)
      · intro hc; exact absurd hc (by decide)
  obtain ⟨sal₁, hs₁, hi₁, e₁⟩ := key g₁ n₁ person₁ s₁ hg₁ h₁ w₁
  obtain ⟨sal₂, hs₂, hi₂, e₂⟩ := key g₂ n₂ person₂ s₂ hg₂ h₂ w₂
  obtain ⟨hsal, hn⟩ := line_inj sal₁ sal₂ n₁ n₂ hs₁ hs₂ (e₁.symm.trans e₂)
  refine ⟨?_, hn⟩
  subst hsal
  rcases hg₁ with rfl | rfl <;> rcases hg₂ with rfl | rfl
  · rfl
  · exact absurd (hi₂.mp (hi₁.mpr rfl)) (by decide)
  · exact absurd (hi₁.mp (hi₂.mpr rfl)) (by decide)
  · rfl

theorem greet_injective_witness :
    IsVariant HELLO ∧ IsVariant HELLO ∧
      PointsTo (caller "Ada" "") 1 ⟨"Ada"⟩ ∧ PointsTo (caller "Ada" "log: ") 1 ⟨"Ada"⟩ ∧
      greet HELLO 1 (caller "Ada" "") = some ((caller "Ada" "").write "Hello, Ada!\n") ∧
      greet HELLO 1 (caller "Ada" "log: ")
        = some ((caller "Ada" "log: ").write "Hello, Ada!\n") ∧
      (HELLO = HELLO ∧ "Ada" = "Ada") :=
  ⟨Or.inl rfl, Or.inl rfl, caller_pointsTo _ _, caller_pointsTo _ _,
    greet_hello 1 ⟨"Ada"⟩ _ (caller_pointsTo _ _),
    greet_hello 1 ⟨"Ada"⟩ _ (caller_pointsTo _ _),
    greet_injective HELLO HELLO "Ada" "Ada" 1 1 (caller "Ada" "") (caller "Ada" "log: ")
      "Hello, Ada!\n" (Or.inl rfl) (Or.inl rfl) (caller_pointsTo _ _) (caller_pointsTo _ _)
      (greet_hello 1 ⟨"Ada"⟩ _ (caller_pointsTo _ _))
      (greet_hello 1 ⟨"Ada"⟩ _ (caller_pointsTo _ _))⟩

/-! ## State, frame and termination -/

/-- C5: `greet` keeps no state between calls. For every greeting value `g` and
every optional Person `op`, the text a call appends is the same whatever the
prior content of the stream, the rest of the state and the address of the
record; two calls in a row append that text twice. -/
theorem greet_stateless (g : Greeting) (op : Option Person) (person₁ person₂ : Nat)
    (s₁ s₂ : State) (h₁ : Refers s₁ person₁ op) (h₂ : Refers s₂ person₂ op) :
    ∃ out, greet g person₁ s₁ = some (s₁.write out) ∧
      greet g person₂ s₂ = some (s₂.write out) ∧
      (greet g person₁ s₁).bind (greet g person₁) = some (s₁.write (out ++ out)) := by
  obtain ⟨out, hout⟩ := greet_line g op
  refine ⟨out, hout person₁ s₁ h₁, hout person₂ s₂ h₂, ?_⟩
  rw [hout person₁ s₁ h₁, Option.some_bind,
    hout person₁ (s₁.write out) (Refers.write s₁ person₁ op out h₁), State.write_write]

theorem greet_stateless_witness :
    Refers (caller "Ada" "") 1 (some ⟨"Ada"⟩) ∧
      Refers (caller "Ada" "earlier output\n") 1 (some ⟨"Ada"⟩) ∧
      ∃ out, greet GOODBYE 1 (caller "Ada" "") = some ((caller "Ada" "").write out) ∧
        greet GOODBYE 1 (caller "Ada" "earlier output\n")
          = some ((caller "Ada" "earlier output\n").write out) ∧
        (greet GOODBYE 1 (caller "Ada" "")).bind (greet GOODBYE 1)
          = some ((caller "Ada" "").write (out ++ out)) :=
  ⟨caller_pointsTo _ _, caller_pointsTo _ _,
    greet_stateless GOODBYE (some ⟨"Ada"⟩) 1 1 (caller "Ada" "")
      (caller "Ada" "earlier output\n") (caller_pointsTo _ _) (caller_pointsTo _ _)⟩

/-- Two `HELLO` calls in a row on an empty stream leave the line twice. -/
theorem greet_twice_ada :
    ((greet HELLO 1 (caller "Ada" "")).bind (greet HELLO 1)).map State.stdout
      = some "Hello, Ada!\nHello, Ada!\n" := by
  rw [greet_hello 1 ⟨"Ada"⟩ _ (caller_pointsTo "Ada" ""), Option.some_bind,
    greet_hello 1 ⟨"Ada"⟩ _ ⟨by decide, rfl⟩]
  decide

/-- C6: `greet` only reads the Person record. For every greeting value and
every present Person, the call returns in a state whose records are those of
the state before, the Person passed among them, and which differs from the
state before by text appended to standard output only. -/
theorem greet_frame (g : Greeting) (person : Nat) (p : Person) (s : State)
    (h : PointsTo s person p) :
    ∃ s', greet g person s = some s' ∧ s'.heap = s.heap ∧ s'.heap person = some p ∧
      ∃ out, s' = s.write out := by
  obtain ⟨out, hout⟩ := greet_writes g person (some p) s h
  exact ⟨s.write out, hout, rfl, h.2, out, rfl⟩

theorem greet_frame_witness :
    PointsTo (caller "Ada" "") 1 ⟨"Ada"⟩ ∧
      ∃ s', greet HELLO 1 (caller "Ada" "") = some s' ∧ s'.heap = (caller "Ada" "").heap ∧
        s'.heap 1 = some ⟨"Ada"⟩ ∧ ∃ out, s' = (caller "Ada" "").write out :=
  ⟨caller_pointsTo _ _, greet_frame HELLO 1 ⟨"Ada"⟩ (caller "Ada" "") (caller_pointsTo _ _)⟩

/-- C7: `greet` has no error condition. For every greeting variant and every
optional Person (the null pointer, or a pointer to a record with any name)
the call returns normally: its result is a state, never the failure `none`.
The dispatch is exhaustive over the variants: with a present Person one of
the two cases of the `switch` runs. -/
theorem greet_returns (g : Greeting) (person : Nat) (op : Option Person) (s : State)
    (hg : IsVariant g) (h : Refers s person op) :
    ∃ s', greet g person s = some s' ∧
      ∀ p, op = some p →
        s' = s.write ("Hello, " ++ p.name ++ "!\n") ∨
        s' = s.write ("Goodbye, " ++ p.name ++ "!\n") := by
  cases op with
  | none =>
    obtain ⟨out, hout⟩ := greet_writes g person none s h
    exact ⟨_, hout, by simp⟩
  | some p =>
    have hp : PointsTo s person p := h
    rcases hg with rfl | rfl
    · refine ⟨_, greet_hello person p s hp, fun q hq => ?_⟩
      cases hq
      exact Or.inl rfl
    · refine ⟨_, greet_goodbye person p s hp, fun q hq => ?_⟩
      cases hq
      exact Or.inr rfl

theorem greet_returns_witness :
    IsVariant GOODBYE ∧ Refers (caller "" "") 1 (some ⟨""⟩) ∧
      ∃ s', greet GOODBYE 1 (caller "" "") = some s' ∧
        ∀ p, some (Person.mk "") = some p →
          s' = (caller "" "").write ("Hello, " ++ p.name ++ "!\n") ∨
          s' = (caller "" "").write ("Goodbye, " ++ p.name ++ "!\n") :=
  ⟨Or.inr rfl, caller_pointsTo _ _,
    greet_returns GOODBYE 1 (some ⟨""⟩) (caller "" "") (Or.inr rfl) (caller_pointsTo _ _)⟩

/-- C8: with the greeting as the C integer (`HELLO = 0`, `GOODBYE = 1`), for
every value other than `0` and `1` and every present Person, `greet` returns
normally in the state it was called in: the `switch` has no `default`, so
nothing is written. -/
theorem greet_unrecognized (g : Greeting) (person : Nat) (p : Person) (s : State)
    (h0 : g ≠ 0) (h1 : g ≠ 1) (_h : PointsTo s person p) :
    HELLO = 0 ∧ GOODBYE = 1 ∧ greet g person s = some s :=
  ⟨rfl, rfl, greet_other g person s h0 h1⟩

theorem greet_unrecognized_witness :
    (2 : Greeting) ≠ 0 ∧ (2 : Greeting) ≠ 1 ∧ PointsTo (caller "Ada" "") 1 ⟨"Ada"⟩ ∧
      (HELLO = 0 ∧ GOODBYE = 1 ∧ greet 2 1 (caller "Ada" "") = some (caller "Ada" "")) :=
  ⟨by decide, by decide, caller_pointsTo _ _,
    greet_unrecognized 2 1 ⟨"Ada"⟩ (caller "Ada" "") (by decide) (by decide)
      (caller_pointsTo _ _)⟩

end Greet
